import Mathlib

/-!
Verification of the telemetry normalization and fusion engine.

This file gives a shallow embedding of the Python sources under `src/` and
proves properties of the embedded functions.  Python strings are modelled as
`List Char` (`Str`) wrapped in Lean `String`s at the interfaces; Python floats
are modelled as rationals (`ℚ`); Python dictionaries holding metric records are
modelled as insertion-ordered association lists (`Dict`); a value `none` of an
`Option`/`Except` result models an uncaught Python exception.  XML documents
are modelled as an element tree (`XmlElem`); parsing text into the tree is the
standard library's job and is outside the scope of the embedding, so embedded
parsers take the parsed document root as input.
-/

namespace Telemetry

/-! ### Python string primitives -/

abbrev Str := List Char

/-- Python `str.lower()` (ASCII, as implemented by `Char.toLower`). -/
def lowerStr (l : Str) : Str := l.map Char.toLower

/-- Python `str.upper()` (ASCII, as implemented by `Char.toUpper`). -/
def upperStr (l : Str) : Str := l.map Char.toUpper

/-- Whitespace as recognised by Python `str.split()` with no arguments. -/
def pyIsSpace (c : Char) : Bool :=
  c == ' ' || c == '\t' || c == '\n' || c == '\r' || c == '\x0b' || c == '\x0c'

/-- First whitespace-delimited token of a string: `text.split()[0]`.
Returns `[]` when the string is empty or all whitespace (the `IndexError`
case, which the caller catches). -/
def firstToken (l : Str) : Str :=
  (l.dropWhile pyIsSpace).takeWhile (fun c => !pyIsSpace c)

/-- Python `needle in hay` substring test. -/
def strContains (hay needle : Str) : Bool :=
  needle.isPrefixOf hay ||
    match hay with
    | [] => false
    | _ :: t => strContains t needle

/-- Numeric value of a digit string, most significant digit first. -/
def digitsVal (l : Str) : ℕ := l.foldl (fun a c => a * 10 + (c.toNat - 48)) 0

/-- Magnitude part accepted by Python `float()`: `digits`, `digits.digits`,
`digits.` or `.digits` (exponent and inf/nan spellings, which the telemetry
documents never contain, are not modelled and yield `none`). -/
def pyFloatMag (l : Str) : Option ℚ :=
  let ip := l.takeWhile Char.isDigit
  let rest := l.drop ip.length
  match rest with
  | [] => if ip.isEmpty then none else some (digitsVal ip)
  | '.' :: fr =>
    if fr.all Char.isDigit && !(ip.isEmpty && fr.isEmpty) then
      some ((digitsVal ip : ℚ) + (digitsVal fr : ℚ) / ((10 : ℚ) ^ fr.length))
    else none
  | _ => none

/-- Python `float(value)` on a single token: optional sign then a magnitude;
`none` models the `ValueError` that the caller catches. -/
def pyFloatCore (l : Str) : Option ℚ :=
  match l with
  | '+' :: r => pyFloatMag r
  | '-' :: r => (pyFloatMag r).map Neg.neg
  | r => pyFloatMag r

/-- Python `int(s)`: optional surrounding whitespace, optional sign, one or
more digits; `none` models the `ValueError` (which `parse_lane_metrics` does
NOT catch). -/
def pyIntCore (l : Str) : Option ℤ :=
  let t := ((l.dropWhile pyIsSpace).reverse.dropWhile pyIsSpace).reverse
  match t with
  | '+' :: r => if !r.isEmpty && r.all Char.isDigit then some (digitsVal r) else none
  | '-' :: r => if !r.isEmpty && r.all Char.isDigit then some (-(digitsVal r : ℤ)) else none
  | r => if !r.isEmpty && r.all Char.isDigit then some (digitsVal r) else none

/-! ### src/ansible/parsers/common/interface_mapping.py -/

/-- `JUNIPER_PREFIX_MAP` from interface_mapping.py, in source (= Python dict
insertion/iteration) order. -/
def JUNIPER_PREFIX_MAP : List (String × String) :=
  [("qfx5240", "et"), ("qfx5230", "et"), ("qfx5220", "et"), ("qfx5210", "et"),
   ("qfx5200", "et"), ("qfx5130", "et"), ("qfx5120", "et"), ("qfx5110", "xe"),
   ("qfx5100", "xe"), ("qfx10k", "et"),
   ("mx", "et"), ("mx960", "et"), ("mx480", "et"), ("mx240", "et"),
   ("mx204", "et"), ("mx150", "et"),
   ("ptx", "et"), ("ptx10k", "et"), ("ptx5000", "et"), ("ptx3000", "et"),
   ("ptx1000", "et"),
   ("ex", "xe"), ("ex4300", "ge"), ("ex4600", "et")]

/-- `parse_juniper_interface_name(fpc, pic, port, platform_hint)`: the first
table key that is a substring of the lowercased hint selects the prefix
(Python iterates the dict in insertion order and `break`s on the first hit);
a falsy or unmatched hint defaults to `"et"`.  The Python signature is
`Optional[str]` but every path returns a string. -/
def parse_juniper_interface_name (fpc pic port : String)
    (platform_hint : Option String) : String :=
  let pfx : String :=
    match platform_hint with
    | some h =>
      if h.data.isEmpty then "et"
      else
        match JUNIPER_PREFIX_MAP.find? (fun kv => strContains (lowerStr h.data) kv.1.data) with
        | some kv => kv.2
        | none => "et"
    | none => "et"
  pfx ++ "-" ++ fpc ++ "/" ++ pic ++ "/" ++ port

/-- Core of `parse_interface_base_name` on character lists: text before the
first `':'` (Python `split(':')[0]`, identity when no colon), then the
`xe-` → `et-` rewrite. -/
def baseNameCore (l : Str) : Str :=
  let base := l.takeWhile (fun c => c != ':')
  if ['x', 'e', '-'].isPrefixOf base then 'e' :: 't' :: '-' :: base.drop 3 else base

/-- `parse_interface_base_name(interface_name)` from interface_mapping.py. -/
def parse_interface_base_name (s : String) : String := ⟨baseNameCore s.data⟩

/-! ### src/ansible/parsers/common/fiber_detection.py -/

/-- Token normalization used by `determine_fiber_type`:
`.upper().replace('-', '').replace(' ', '')`. -/
def normTok (l : Str) : Str := (upperStr l).filter (fun c => c != '-' && c != ' ')

/-- Python `any(pattern in s for pattern in patterns)`. -/
def anyContains (hay : Str) (pats : List String) : Bool :=
  pats.any (fun p => strContains hay p.data)

def MMF_MEDIA_PATTERNS : List String :=
  ["SR", "SX", "VCSEL", "850NM", "MMF", "MULTIMODE"]

def SMF_MEDIA_PATTERNS : List String :=
  ["LR", "ER", "ZR", "LX", "EX", "ZX", "1310NM", "1550NM", "CWDM", "DWDM",
   "SMF", "SINGLEMODE"]

def MMF_DESC_PATTERNS : List String :=
  ["SR", "SX", "VCSEL", "850NM", "MMF", "MULTIMODE", "SHORT"]

def SMF_DESC_PATTERNS : List String :=
  ["LR", "ER", "ZR", "LX", "EX", "ZX", "1310NM", "1550NM", "CWDM", "DWDM",
   "SMF", "SINGLEMODE", "LONG", "EXTENDED"]

def FIBER_TYPE_SINGLE_MODE : String := "FIBER_TYPE_SINGLE_MODE"

def FIBER_TYPE_MULTI_MODE : String := "FIBER_TYPE_MULTI_MODE"

/-- `determine_fiber_type(media_type, description, wavelength_nm)`: wavelength
first (skipped when falsy, i.e. absent or 0), then media-type patterns, then
description patterns, multi-mode sets checked before single-mode sets. -/
def determine_fiber_type (media_type description : Option String)
    (wavelength_nm : Option Int) : Option String :=
  let descBranch : Option String :=
    match description with
    | some d =>
      if d.data.isEmpty then none
      else
        let du := normTok d.data
        if anyContains du MMF_DESC_PATTERNS then some FIBER_TYPE_MULTI_MODE
        else if anyContains du SMF_DESC_PATTERNS then some FIBER_TYPE_SINGLE_MODE
        else none
    | none => none
  let mediaBranch : Option String :=
    match media_type with
    | some m =>
      if m.data.isEmpty then descBranch
      else
        let mu := normTok m.data
        if anyContains mu MMF_MEDIA_PATTERNS then some FIBER_TYPE_MULTI_MODE
        else if anyContains mu SMF_MEDIA_PATTERNS then some FIBER_TYPE_SINGLE_MODE
        else descBranch
    | none => descBranch
  match wavelength_nm with
  | some w =>
    if w == 0 then mediaBranch
    else if w == 850 then some FIBER_TYPE_MULTI_MODE
    else if w == 1310 || w == 1550 then some FIBER_TYPE_SINGLE_MODE
    else if 1270 ≤ w && w ≤ 1610 then some FIBER_TYPE_SINGLE_MODE
    else mediaBranch
  | none => mediaBranch

/-! ### XML element model and the namespace-agnostic accessors
(src/parsers/optics_diagnostics.py lines 15-43, duplicated in
src/ansible/parsers/common/xml_utils.py) -/

mutual
/-- An ElementTree element: tag, attributes (in insertion order), text and
child elements.  Children are a mutually-inductive forest so that recursion
over the tree stays structural. -/
inductive XmlElem where
  | mk (tag : String) (attrs : List (String × String)) (text : Option String)
       (children : XmlForest)
inductive XmlForest where
  | nil
  | cons (head : XmlElem) (tail : XmlForest)
end

def XmlForest.toList : XmlForest → List XmlElem
  | .nil => []
  | .cons c cs => c :: cs.toList

/-- Build a forest from a list, for readable document literals. -/
def XmlForest.ofList : List XmlElem → XmlForest
  | [] => .nil
  | c :: cs => .cons c (XmlForest.ofList cs)

def XmlElem.tag : XmlElem → String
  | .mk t _ _ _ => t

def XmlElem.attrs : XmlElem → List (String × String)
  | .mk _ a _ _ => a

def XmlElem.text : XmlElem → Option String
  | .mk _ _ x _ => x

def XmlElem.children : XmlElem → List XmlElem
  | .mk _ _ _ cs => cs.toList

mutual
/-- ElementTree `element.iter()`: the element itself followed by all
descendants, document order. -/
def XmlElem.iterAll : XmlElem → List XmlElem
  | .mk t a x cs => .mk t a x cs :: cs.iterAll
def XmlForest.iterAll : XmlForest → List XmlElem
  | .nil => []
  | .cons c cs => c.iterAll ++ cs.iterAll
end

/-- `strip_namespace(tag)`: `tag.split('}', 1)[1] if '}' in tag else tag`. -/
def strip_namespace (t : String) : String :=
  if t.data.contains '}' then ⟨(t.data.dropWhile (fun c => c != '}')).drop 1⟩ else t

/-- `findall_ns(element, tag)`: direct children whose stripped tag matches. -/
def findall_ns (e : XmlElem) (t : String) : List XmlElem :=
  e.children.filter (fun c => strip_namespace c.tag == t)

/-- `find_ns(element, tag)`: first matching direct child, if any. -/
def find_ns (e : XmlElem) (t : String) : Option XmlElem :=
  (findall_ns e t).head?

/-- `findtext_ns(element, tag, default)`: the child's text when the child
exists and its text is truthy (non-`None`, non-empty), else the default. -/
def findtext_ns (e : XmlElem) (t : String) (dflt : Option String) : Option String :=
  match find_ns e t with
  | some c =>
    match c.text with
    | some s => if s.data.isEmpty then dflt else some s
    | none => dflt
  | none => dflt

/-- `findall_recursive_ns(element, tag)`: all elements of `element.iter()`
(the element itself included) whose stripped tag matches. -/
def findall_recursive_ns (e : XmlElem) (t : String) : List XmlElem :=
  e.iterAll.filter (fun c => strip_namespace c.tag == t)

/-! ### Python value and dictionary model for metric records -/

/-- Values stored in metric record dictionaries: `None`, a float (as `ℚ`),
an int, or a string. -/
inductive PyVal where
  | pnone
  | pnum (q : ℚ)
  | pint (n : ℤ)
  | pstr (s : String)
deriving DecidableEq

/-- A Python dict with string keys, modelled as an insertion-ordered
association list (no duplicate keys arise: assignment to an existing key
updates it in place, a new key is appended). -/
abbrev Dict := List (String × PyVal)

/-- `d.get(k)` / `d[k]`-style lookup. -/
def dget (d : Dict) (k : String) : Option PyVal :=
  (d.find? (fun kv => kv.1 == k)).map (fun kv => kv.2)

/-- `d[k] = v`: update in place if the key exists, else append. -/
def dset (d : Dict) (k : String) (v : PyVal) : Dict :=
  if (d.find? (fun kv => kv.1 == k)).isSome then
    d.map (fun kv => if kv.1 == k then (k, v) else kv)
  else d ++ [(k, v)]

/-- `d.update(m)`. -/
def dupdate (d m : Dict) : Dict := m.foldl (fun a kv => dset a kv.1 kv.2) d

/-- Python truthiness of a value. -/
def pyTruthy : PyVal → Bool
  | .pnone => false
  | .pnum q => q != 0
  | .pint n => n != 0
  | .pstr s => !s.data.isEmpty

/-- Python truthiness of a `dict.get` result (`None` for a missing key). -/
def oTruthy : Option PyVal → Bool
  | some x => pyTruthy x
  | none => false

/-- Observer for "the field is populated": the key is present and bound to a
value other than `None` (a missing key and an explicit `None` both count as
not populated). -/
def hasValue : Option PyVal → Bool
  | some (.pnum _) => true
  | some (.pint _) => true
  | some (.pstr _) => true
  | some .pnone => false
  | none => false

/-- The `if src.get(k): dst[k] = src[k]` idiom of merge_metadata.py. -/
def condSet (d : Dict) (k : String) (v : Option PyVal) : Dict :=
  match v with
  | some x => if pyTruthy x then dset d k x else d
  | none => d

/-! ### src/parsers/optics_diagnostics.py -/

/-- `extract_numeric_value(text)`: falsy text yields `None`; otherwise the
first whitespace token is parsed with `float()`, errors yielding `None`. -/
def extract_numeric_value (t : Option String) : Option ℚ :=
  match t with
  | none => none
  | some s =>
    if s.data.isEmpty then none
    else
      let tok := firstToken s.data
      if tok.isEmpty then none else pyFloatCore tok

/-- Wrap an optional numeric as the stored dict value. -/
def numVal (o : Option ℚ) : PyVal :=
  match o with
  | some q => .pnum q
  | none => .pnone

/-- The `junos:celsius` attribute key probed first by
`parse_interface_metrics` (namespace-qualified, braces as in ElementTree). -/
def JUNOS_CELSIUS_ATTR : String :=
  "\x7bhttp://xml.juniper.net/junos/26.2I20251216150948-vchintada-1/junos\x7dcelsius"

/-- The `module-temperature` handling of `parse_interface_metrics` lines
139-151: probe the namespaced attribute, fall back to the first attribute
whose lowercased name contains `celsius`, extract a number when truthy. -/
def moduleTemperatureVal (og : XmlElem) : PyVal :=
  match find_ns og "module-temperature" with
  | some te =>
    let k0 : Option String :=
      (te.attrs.find? (fun kv => kv.1 == JUNOS_CELSIUS_ATTR)).map (fun kv => kv.2)
    let tc : Option String :=
      match k0 with
      | some s =>
        if s.data.isEmpty then
          (te.attrs.find? (fun kv => strContains (lowerStr kv.1.data) "celsius".data)).map
            (fun kv => kv.2)
        else some s
      | none =>
        (te.attrs.find? (fun kv => strContains (lowerStr kv.1.data) "celsius".data)).map
          (fun kv => kv.2)
    match tc with
    | some s => if s.data.isEmpty then .pnone else numVal (extract_numeric_value (some s))
    | none => .pnone
  | none => .pnone

/-- `parse_interface_metrics(phys_interface, device, additional_metadata)`.
The wall-clock microsecond timestamp is passed in as `ts`.  Keys are listed
in source assignment order (every key is fresh, so dict assignment is
append). -/
def parse_interface_metrics (phys : XmlElem) (device : String) (ts : ℤ)
    (meta : Option Dict) : Option Dict :=
  let iname := (findtext_ns phys "name" (some "unknown")).getD "unknown"
  match find_ns phys "optics-diagnostics" with
  | none => none
  | some og =>
    if (find_ns og "optic-diagnostics-not-available").isSome then none
    else
      let tnum := fun (t : String) => numVal (extract_numeric_value (findtext_ns og t none))
      let metrics : Dict :=
        [("if_name", .pstr iname), ("device", .pstr device), ("timestamp", .pint ts),
         ("temperature_high_alarm", tnum "laser-temperature-high-alarm-threshold"),
         ("temperature_low_alarm", tnum "laser-temperature-low-alarm-threshold"),
         ("temperature_high_warn", tnum "laser-temperature-high-warn-threshold"),
         ("temperature_low_warn", tnum "laser-temperature-low-warn-threshold"),
         ("voltage_high_alarm", tnum "module-voltage-high-alarm-threshold"),
         ("voltage_low_alarm", tnum "module-voltage-low-alarm-threshold"),
         ("voltage_high_warn", tnum "module-voltage-high-warn-threshold"),
         ("voltage_low_warn", tnum "module-voltage-low-warn-threshold"),
         ("tx_power_high_alarm", tnum "laser-tx-power-high-alarm-threshold-dbm"),
         ("tx_power_low_alarm", tnum "laser-tx-power-low-alarm-threshold-dbm"),
         ("tx_power_high_warn", tnum "laser-tx-power-high-warn-threshold-dbm"),
         ("tx_power_low_warn", tnum "laser-tx-power-low-warn-threshold-dbm"),
         ("rx_power_high_alarm", tnum "laser-rx-power-high-alarm-threshold-dbm"),
         ("rx_power_low_alarm", tnum "laser-rx-power-low-alarm-threshold-dbm"),
         ("rx_power_high_warn", tnum "laser-rx-power-high-warn-threshold-dbm"),
         ("rx_power_low_warn", tnum "laser-rx-power-low-warn-threshold-dbm"),
         ("tx_bias_high_alarm", tnum "laser-bias-current-high-alarm-threshold"),
         ("tx_bias_low_alarm", tnum "laser-bias-current-low-alarm-threshold"),
         ("tx_bias_high_warn", tnum "laser-bias-current-high-warn-threshold"),
         ("tx_bias_low_warn", tnum "laser-bias-current-low-warn-threshold"),
         ("temperature", moduleTemperatureVal og),
         ("voltage", tnum "module-voltage")]
      some (match meta with | some m => dupdate metrics m | none => metrics)

/-- The Python `for lane in ...` loop: process elements left to right,
collecting results, an exception aborting the rest. -/
def laneLoop (f : XmlElem → Except String Dict) : List XmlElem → Except String (List Dict)
  | [] => .ok []
  | l :: ls =>
    match f l with
    | .error e => .error e
    | .ok d =>
      match laneLoop f ls with
      | .error e => .error e
      | .ok ds => .ok (d :: ds)

/-- `parse_lane_metrics(phys_interface, device, additional_metadata)`.  The
`int(lane_index)` conversion is NOT guarded in the source: a lane-index text
that `int()` rejects raises a `ValueError` which propagates, modelled as
`Except.error`. -/
def parse_lane_metrics (phys : XmlElem) (device : String) (ts : ℤ)
    (meta : Option Dict) : Except String (List Dict) :=
  let iname := (findtext_ns phys "name" (some "unknown")).getD "unknown"
  match find_ns phys "optics-diagnostics" with
  | none => .ok []
  | some og =>
    if (find_ns og "optic-diagnostics-not-available").isSome then .ok []
    else
      laneLoop (fun lane =>
        let li := (findtext_ns lane "lane-index" (some "0")).getD "0"
        match pyIntCore li.data with
        | none => .error "ValueError: invalid literal for int()"
        | some n =>
          let lnum := fun (t : String) =>
            numVal (extract_numeric_value (findtext_ns lane t none))
          let m : Dict :=
            [("if_name", .pstr iname), ("device", .pstr device), ("lane", .pint n),
             ("timestamp", .pint ts),
             ("rx_power_mw", lnum "laser-rx-optical-power"),
             ("rx_power", lnum "laser-rx-optical-power-dbm"),
             ("tx_power_mw", lnum "laser-output-power"),
             ("tx_power", lnum "laser-output-power-dbm"),
             ("tx_bias", lnum "laser-bias-current")]
          .ok (match meta with | some md => dupdate m md | none => m))
        (findall_recursive_ns og "optics-diagnostics-lane-values")

/-- Output shape of the optics parser: the `interfaces` and `lanes` arrays. -/
structure OpticsResult where
  interfaces : List Dict
  lanes : List Dict
deriving DecidableEq

/-- One iteration of the `parse_optical_diagnostics` loop over a
`physical-interface` element: append the interface record when truthy, then
extend the lanes (a lane `ValueError` aborts). -/
def opticsStep (device : String) (ts : ℤ) (meta : Option Dict)
    (acc : List Dict × List Dict) (phys : XmlElem) :
    Except String (List Dict × List Dict) :=
  let acc1 : List Dict × List Dict :=
    match parse_interface_metrics phys device ts meta with
    | some d => (acc.1 ++ [d], acc.2)
    | none => acc
  match parse_lane_metrics phys device ts meta with
  | .ok lns => .ok (acc1.1, acc1.2 ++ lns)
  | .error e => .error e

/-- `parse_optical_diagnostics(xml_content, device, additional_metadata)` on
an already-parsed document root.  Only `ET.ParseError` is caught in the
source, so the lane `ValueError` aborts the whole document (`Except.error`). -/
def parse_optical_diagnostics (root : XmlElem) (device : String) (ts : ℤ)
    (meta : Option Dict) : Except String OpticsResult :=
  ((findall_recursive_ns root "physical-interface").foldlM
    (opticsStep device ts meta) ([], [])).map (fun acc => ⟨acc.1, acc.2⟩)

/-! ### src/ansible/parsers/juniper/merge_metadata.py -/

/-- The fields `merge_metadata` reads from the system-information record. -/
structure SystemInfo where
  origin_hostname : Option PyVal
  device_profile : Option PyVal

/-- The fields `merge_metadata` reads from the chassis-inventory record:
the device serial (`origin_name`) and the interface-name → transceiver map. -/
structure ChassisInv where
  origin_name : Option PyVal
  transceivers : List (String × Dict)

/-- The field `merge_metadata` reads from the PIC-detail record. -/
structure PicDetail where
  transceivers : List (String × Dict)

/-- Lookup in an interface-name → transceiver-metadata map. -/
def xget (m : List (String × Dict)) (k : String) : Option Dict :=
  (m.find? (fun kv => kv.1 == k)).map (fun kv => kv.2)

/-- The per-record body of the two `merge_metadata` loops (the source repeats
the identical statements for the `interfaces` and the `lanes` list): copy the
truthy device-level fields, then canonicalize the record's `if_name` to the
parent base name, then layer chassis-inventory fields and finally PIC-detail
fields over the record, each guarded by truthiness of the source value. -/
def merge_record (oh dp onm : Option PyVal) (xcvrs picx : List (String × Dict))
    (rec : Dict) : Dict :=
  let r := condSet (condSet (condSet rec "origin_hostname" oh) "device_profile" dp)
    "origin_name" onm
  let base : Option String :=
    match dget rec "if_name" with
    | some (.pstr s) => if s.data.isEmpty then none else some (parse_interface_base_name s)
    | _ => none
  match base with
  | none => r
  | some b =>
    let r1 :=
      match xget xcvrs b with
      | some x =>
        condSet (condSet (condSet (condSet (condSet r
          "part_number" (dget x "part_number"))
          "serial_number" (dget x "serial_number"))
          "vendor" (dget x "vendor"))
          "media_type" (dget x "media_type"))
          "fiber_type" (dget x "fiber_type")
      | none => r
    match xget picx b with
    | some p =>
      condSet (condSet (condSet (condSet (condSet (condSet (condSet r1
        "vendor" (dget p "vendor"))
        "part_number" (dget p "part_number"))
        "cable_type" (dget p "cable_type"))
        "media_type" (dget p "media_type"))
        "wavelength" (dget p "wavelength"))
        "fiber_type" (dget p "fiber_type"))
        "firmware_version" (dget p "firmware_version")
    | none => r1

/-- `merge_metadata(system_info, chassis_inv, optics_metrics, pic_detail)`:
apply the merge body to every interface record and every lane record. -/
def merge_metadata (si : SystemInfo) (ci : ChassisInv) (om : OpticsResult)
    (pd : Option PicDetail) : OpticsResult :=
  let picx := match pd with | some p => p.transceivers | none => []
  ⟨om.interfaces.map
      (merge_record si.origin_hostname si.device_profile ci.origin_name ci.transceivers picx),
   om.lanes.map
      (merge_record si.origin_hostname si.device_profile ci.origin_name ci.transceivers picx)⟩

/-! ### src/ansible/scripts/calculate_throughput.py -/

/-- Numeric view of a value; `none` on `None`/strings models the `TypeError`
Python arithmetic would raise. -/
def toRat : PyVal → Option ℚ
  | .pint n => some (n : ℚ)
  | .pnum q => some q
  | _ => none

/-- Python subtraction on record values: int − int stays int, any other
numeric pair goes through float arithmetic, non-numeric raises. -/
def pySub (a b : PyVal) : Option PyVal :=
  match a, b with
  | .pint m, .pint n => some (.pint (m - n))
  | _, _ =>
    match toRat a, toRat b with
    | some x, some y => some (.pnum (x - y))
    | _, _ => none

/-- The keys of the `current_state` dict built by `calculate_throughput`
(source order). -/
def STATE_KEYS : List String :=
  ["timestamp", "collection_time", "rx_bps", "tx_bps", "rx_pps", "tx_pps",
   "fec_ccw_count", "fec_nccw_count"]

/-- The `current_state` dict: `interface_data.get(k)` for each key, missing
keys stored as `None`. -/
def mk_current_state (d : Dict) : Dict :=
  STATE_KEYS.map (fun k => (k, (dget d k).getD .pnone))

/-- The cold-start branch of `calculate_throughput`: all five output fields
are set to an explicit `None`, in source order. -/
def coldMark (d : Dict) : Dict :=
  dset (dset (dset (dset (dset d
    "fec_ccw_delta" .pnone)
    "fec_nccw_delta" .pnone)
    "fec_ccw_rate" .pnone)
    "fec_nccw_rate" .pnone)
    "collection_interval_sec" .pnone

/-- One FEC counter block of the delta branch: when both the current and
previous counter are present and not `None`, set the delta and the
delta/interval rate fields; non-numeric counters raise. -/
def fecStep (cs p : Dict) (td : ℚ) (ckey dkey rkey : String) (d : Dict) :
    Option Dict :=
  match dget cs ckey, dget p ckey with
  | some cv, some pv =>
    if cv != PyVal.pnone && pv != PyVal.pnone then
      match pySub cv pv with
      | some dl =>
        match toRat dl with
        | some dq => some (dset (dset d dkey dl) rkey (.pnum (dq / td)))
        | none => none
      | none => none
    else some d
  | _, _ => some d

/-- `ThroughputCalculator.calculate_throughput(interface_data)` as a pure
function of the loaded previous state and the current record.  The result is
the updated record together with the state that is saved afterwards; `none`
models an uncaught exception (the save then never happens). -/
def calculate_throughput (prev : Option Dict) (d : Dict) : Option (Dict × Dict) :=
  let cs := mk_current_state d
  match prev with
  | some p =>
    if !p.isEmpty && pyTruthy ((dget p "timestamp").getD .pnone) then
      match (dget d "timestamp").bind toRat, (dget p "timestamp").bind toRat with
      | some c, some q =>
        let td : ℚ := (c - q) / 1000000
        if td > 0 then
          match fecStep cs p td "fec_ccw_count" "fec_ccw_delta" "fec_ccw_rate" d with
          | some d1 =>
            match fecStep cs p td "fec_nccw_count" "fec_nccw_delta" "fec_nccw_rate" d1 with
            | some d2 => some (dset d2 "collection_interval_sec" (.pnum td), cs)
            | none => none
          | none => none
        else some (d, cs)
      | _, _ => none
    else some (coldMark d, cs)
  | none => some (coldMark d, cs)

/-! ### Concrete test documents -/

/-- Leaf element with text content. -/
def xmlLeaf (tag txt : String) : XmlElem := .mk tag [] (some txt) (XmlForest.ofList [])

/-- Interior element with children. -/
def xmlNode (tag : String) (cs : List XmlElem) : XmlElem :=
  .mk tag [] none (XmlForest.ofList cs)

/-- Leaf element carrying attributes. -/
def xmlLeafAttrs (tag : String) (attrs : List (String × String)) (txt : Option String) :
    XmlElem := .mk tag attrs txt (XmlForest.ofList [])

/-- A physical interface whose optics-diagnostics subtree carries DOM
measurements directly (no lane-value elements), mirroring the repository's
`optics_rpc_response2.xml` test fixture for `xe-0/0/6`. -/
def c1NoLanesDoc : XmlElem :=
  xmlNode "interface-information"
    [xmlNode "physical-interface"
      [xmlLeaf "name" "xe-0/0/6",
       xmlNode "optics-diagnostics"
         [xmlLeaf "laser-temperature-high-alarm-threshold" "90 degrees C / 194 degrees F",
          xmlLeafAttrs "module-temperature" [(JUNOS_CELSIUS_ATTR, "38.5")]
            (some "38 degrees C / 101 degrees F"),
          xmlLeaf "module-voltage" "3.3280",
          xmlLeaf "laser-bias-current" "5.382 mA",
          xmlLeaf "laser-output-power" "0.5910 mW",
          xmlLeaf "laser-output-power-dbm" "-2.28 dBm",
          xmlLeaf "laser-rx-optical-power" "0.6282 mW",
          xmlLeaf "laser-rx-optical-power-dbm" "-2.02 dBm"]]]

/-- A physical interface with one lane-value element and with
`module-voltage`/`module-temperature` present at the subtree level. -/
def c1LaneDoc : XmlElem :=
  xmlNode "interface-information"
    [xmlNode "physical-interface"
      [xmlLeaf "name" "et-0/0/32",
       xmlNode "optics-diagnostics"
         [xmlLeaf "laser-temperature-high-alarm-threshold" "90 degrees C / 194 degrees F",
          xmlLeafAttrs "module-temperature" [(JUNOS_CELSIUS_ATTR, "38.5")]
            (some "38 degrees C / 101 degrees F"),
          xmlLeaf "module-voltage" "3.3280",
          xmlNode "optics-diagnostics-lane-values"
            [xmlLeaf "lane-index" "0",
             xmlLeaf "laser-bias-current" "6.157 mA",
             xmlLeaf "laser-output-power" "0.585 mW",
             xmlLeaf "laser-output-power-dbm" "-2.32 dBm",
             xmlLeaf "laser-rx-optical-power" "0.591 mW",
             xmlLeaf "laser-rx-optical-power-dbm" "-2.28 dBm"]]]]

/-- A document whose first physical interface carries a lane element with a
non-numeric `lane-index`, followed by a perfectly well-formed second
interface. -/
def c8BadLaneDoc : XmlElem :=
  xmlNode "interface-information"
    [xmlNode "physical-interface"
      [xmlLeaf "name" "et-0/0/0",
       xmlNode "optics-diagnostics"
         [xmlNode "optics-diagnostics-lane-values"
           [xmlLeaf "lane-index" "abc",
            xmlLeaf "laser-bias-current" "6.157 mA"]]],
     xmlNode "physical-interface"
      [xmlLeaf "name" "et-0/0/1",
       xmlNode "optics-diagnostics"
         [xmlNode "optics-diagnostics-lane-values"
           [xmlLeaf "lane-index" "0",
            xmlLeaf "laser-bias-current" "6.157 mA"]]]]

/-- The well-formed second interface of `c8BadLaneDoc`, alone. -/
def c8GoodOnlyDoc : XmlElem :=
  xmlNode "interface-information"
    [xmlNode "physical-interface"
      [xmlLeaf "name" "et-0/0/1",
       xmlNode "optics-diagnostics"
         [xmlNode "optics-diagnostics-lane-values"
           [xmlLeaf "lane-index" "0",
            xmlLeaf "laser-bias-current" "6.157 mA"]]]]

/-- A physical interface with a valid optics-diagnostics subtree but no
`name` child at all. -/
def c9NamelessDoc : XmlElem :=
  xmlNode "interface-information"
    [xmlNode "physical-interface"
      [xmlNode "optics-diagnostics"
        [xmlLeaf "laser-temperature-high-alarm-threshold" "90 degrees C / 194 degrees F"]]]

/-- A lane-value element with no `lane-index` child. -/
def c10Lane : XmlElem :=
  xmlNode "optics-diagnostics-lane-values" [xmlLeaf "laser-bias-current" "6.157 mA"]

def c10Og : XmlElem := xmlNode "optics-diagnostics" [c10Lane]

def c10Phys : XmlElem :=
  xmlNode "physical-interface" [xmlLeaf "name" "et-0/0/32", c10Og]

/-! ## Theorems -/

/-- Core fact for C5: the character-list normalization is idempotent. -/
theorem baseNameCore_idem (l : Str) : baseNameCore (baseNameCore l) = baseNameCore l := by
  unfold baseNameCore
  by_cases h :
      (['x', 'e', '-'].isPrefixOf (l.takeWhile (fun c => c != ':'))) = true
  · simp only [h, if_true]
    have hd : (((l.takeWhile (fun c => c != ':')).drop 3).takeWhile (fun c => c != ':'))
        = (l.takeWhile (fun c => c != ':')).drop 3 := by
      rw [List.takeWhile_eq_self_iff]
      intro x hx
      have hx' : x ∈ l.takeWhile (fun c => c != ':') := List.mem_of_mem_drop hx
      exact List.mem_takeWhile_imp (p := fun c => c != ':') (l := l) hx'
    simp only [List.takeWhile_cons, hd]
    rfl
  · rw [if_neg h]
    rw [List.takeWhile_idem, if_neg h]

/-- C5 (confirmed): `parse_interface_base_name` (strip the `:N` channel
suffix, rewrite the legacy `xe-` prefix spelling to `et-`) is idempotent on
every interface-name string. -/
theorem parse_interface_base_name_idem (x : String) :
    parse_interface_base_name (parse_interface_base_name x) =
      parse_interface_base_name x :=
  congrArg String.mk (baseNameCore_idem x.data)

/-- C6 (confirmed): with a wavelength of 1310 nm, `determine_fiber_type`
returns single-mode for every media-type string and every description string;
the wavelength test precedes and short-circuits all keyword matching. -/
theorem determine_fiber_type_1310_single_mode (media_type description : Option String) :
    determine_fiber_type media_type description (some 1310) =
      some FIBER_TYPE_SINGLE_MODE := rfl

/-- C2 (code bug): for slot coordinate 0/0/6 under platform hint `qfx5100`,
the chassis-inventory extractor stores the transceiver under the key produced
by `parse_juniper_interface_name`, namely `xe-0/0/6`, while the fusion engine
looks slot metadata up under the parent canonical name
`parse_interface_base_name("xe-0/0/6") = "et-0/0/6"`; the two keys differ, so
the join misses, contradicting the claimed invariant (and the
`parse_interface_base_name` docstring's premise that the chassis inventory
always uses the `et-` prefix). -/
theorem chassis_key_vs_canonical_mismatch :
    parse_juniper_interface_name "0" "0" "6" (some "qfx5100") = "xe-0/0/6"
    ∧ parse_interface_base_name "xe-0/0/6" = "et-0/0/6"
    ∧ parse_juniper_interface_name "0" "0" "6" (some "qfx5100")
        ≠ parse_interface_base_name "xe-0/0/6" := by
  refine ⟨rfl, rfl, ?_⟩
  decide

/-- C7 counterexample: the hint `ex4300` contains both the specific table key
`ex4300` (prefix `ge`) and the generic family key `ex` (prefix `xe`); the
resolver returns the generic entry's prefix, not the specific entry's. -/
theorem resolver_generic_before_specific_cex :
    parse_juniper_interface_name "0" "0" "6" (some "ex4300") = "xe-0/0/6"
    ∧ parse_juniper_interface_name "0" "0" "6" (some "ex4300") ≠ "ge-0/0/6" := by
  refine ⟨rfl, ?_⟩
  decide

/-- C7 (corrected): the resolver matches the platform hint case-insensitively
as a substring against the table in fixed insertion order, first match wins —
so a hint containing both a specific sub-model token and an earlier generic
family token gets the generic entry's prefix (for `ex4300` the generic `ex`
entry's `xe`); an unmatched or absent hint defaults to `et`; the name is
always `{prefix}-{module}/{subslot}/{port}`. -/
theorem resolver_first_match_semantics :
    (∀ f s p : String,
      parse_juniper_interface_name f s p none = "et-" ++ f ++ "/" ++ s ++ "/" ++ p)
    ∧ (∀ f s p hint : String,
        (∀ kv ∈ JUNIPER_PREFIX_MAP, strContains (lowerStr hint.data) kv.1.data = false) →
        parse_juniper_interface_name f s p (some hint) = "et-" ++ f ++ "/" ++ s ++ "/" ++ p)
    ∧ (∀ f s p : String,
        parse_juniper_interface_name f s p (some "ex4300") = "xe-" ++ f ++ "/" ++ s ++ "/" ++ p)
    ∧ (∀ f s p : String,
        parse_juniper_interface_name f s p (some "EX4300") = "xe-" ++ f ++ "/" ++ s ++ "/" ++ p) := by
  refine ⟨fun f s p => rfl, ?_, fun f s p => rfl, fun f s p => rfl⟩
  intro f s p hint h
  have hf : JUNIPER_PREFIX_MAP.find?
      (fun kv => strContains (lowerStr hint.data) kv.1.data) = none :=
    List.find?_eq_none.2 (fun kv hkv => by simp [h kv hkv])
  have hrw : parse_juniper_interface_name f s p (some hint) =
      (if hint.data.isEmpty then "et"
       else
         match JUNIPER_PREFIX_MAP.find?
             (fun kv => strContains (lowerStr hint.data) kv.1.data) with
         | some kv => kv.2
         | none => "et") ++ "-" ++ f ++ "/" ++ s ++ "/" ++ p := rfl
  rw [hrw]
  by_cases he : hint.data.isEmpty = true
  · rw [if_pos he]
    rfl
  · rw [if_neg he, hf]
    rfl

/-- Witness for `resolver_first_match_semantics`: a hint matching no table
entry resolves with the default `et` prefix. -/
theorem resolver_first_match_semantics_witness :
    parse_juniper_interface_name "0" "0" "6" (some "acme-switch") = "et-0/0/6" := by
  have h := resolver_first_match_semantics.2.1 "0" "0" "6" "acme-switch" (by decide)
  exact h.trans (by decide)

/-! ### Dictionary access lemmas -/

theorem dset_nil (k : String) (v : PyVal) : dset [] k v = [(k, v)] := rfl

theorem dget_cons (a : String × PyVal) (t : Dict) (k : String) :
    dget (a :: t) k = if a.1 == k then some a.2 else dget t k := by
  by_cases h : (a.1 == k) = true <;> simp [dget, List.find?_cons, h]

theorem dset_cons (a : String × PyVal) (t : Dict) (k : String) (v : PyVal) :
    dset (a :: t) k v =
      if a.1 == k then (k, v) :: t.map (fun kv => if kv.1 == k then (k, v) else kv)
      else a :: dset t k v := by
  by_cases h : a.1 = k
  · simp [dset, List.find?_cons, h]
  · by_cases h2 : (t.find? (fun kv => kv.1 == k)).isSome = true <;>
      simp [dset, List.find?_cons, h, h2]

theorem dget_map_upd (t : Dict) (k k' : String) (v : PyVal) (h : k' ≠ k) :
    dget (t.map (fun kv => if kv.1 == k then (k, v) else kv)) k' = dget t k' := by
  induction t with
  | nil => rfl
  | cons a t ih =>
    by_cases ha : a.1 = k
    · simp only [List.map_cons, dget_cons]
      simp [ha, Ne.symm h]
      simpa using ih
    · simp only [List.map_cons, dget_cons]
      by_cases ha' : a.1 = k'
      · simp [ha, ha', h]
      · simp [ha, ha']
        simpa using ih

theorem dget_dset_self (d : Dict) (k : String) (v : PyVal) :
    dget (dset d k v) k = some v := by
  induction d with
  | nil => simp [dset_nil, dget_cons]
  | cons a t ih =>
    rw [dset_cons]
    by_cases h : a.1 = k
    · simp [h, dget_cons]
    · simp [h, dget_cons]
      simpa using ih

theorem dget_dset_ne (d : Dict) (k k' : String) (v : PyVal) (h : k' ≠ k) :
    dget (dset d k v) k' = dget d k' := by
  induction d with
  | nil => simp [dset_nil, dget_cons, Ne.symm h]
  | cons a t ih =>
    rw [dset_cons]
    by_cases ha : a.1 = k
    · simp [dget_cons, ha, Ne.symm h]
      simpa using dget_map_upd t k k' v h
    · by_cases ha' : a.1 = k'
      · simp [dget_cons, ha, ha', h]
      · simp [dget_cons, ha, ha']
        simpa using ih

theorem dget_condSet_self (d : Dict) (k : String) (v : Option PyVal) :
    dget (condSet d k v) k = if oTruthy v then v else dget d k := by
  match v with
  | none => rfl
  | some x =>
    by_cases h : pyTruthy x = true <;> simp [condSet, oTruthy, h, dget_dset_self]

theorem dget_condSet_ne (d : Dict) (k k' : String) (v : Option PyVal) (h : k' ≠ k) :
    dget (condSet d k v) k' = dget d k' := by
  match v with
  | none => rfl
  | some x =>
    by_cases hx : pyTruthy x = true <;> simp [condSet, hx, dget_dset_ne d k k' x h]

/-- C3 (confirmed): for a record whose parent canonical interface name is
present in both the chassis-inventory transceiver map and the PIC-detail
("slot detail") transceiver map, each of the seven metadata fields fuses with
slot-detail precedence: a truthy (non-empty) slot-detail value overwrites, an
absent or empty slot-detail value keeps the chassis-derived value, and when
both sources are silent the record's prior value survives (chassis-derived
values exist only for the five fields the chassis parser emits). -/
theorem fuse_field_precedence (oh dp onm : Option PyVal)
    (xcvrs picx : List (String × Dict)) (rec : Dict) (x p : Dict) (s : String)
    (hname : dget rec "if_name" = some (.pstr s)) (hs : s.data.isEmpty = false)
    (hx : xget xcvrs (parse_interface_base_name s) = some x)
    (hp : xget picx (parse_interface_base_name s) = some p) :
    (dget (merge_record oh dp onm xcvrs picx rec) "vendor" =
      if oTruthy (dget p "vendor") then dget p "vendor"
      else if oTruthy (dget x "vendor") then dget x "vendor"
      else dget rec "vendor")
    ∧ (dget (merge_record oh dp onm xcvrs picx rec) "part_number" =
      if oTruthy (dget p "part_number") then dget p "part_number"
      else if oTruthy (dget x "part_number") then dget x "part_number"
      else dget rec "part_number")
    ∧ (dget (merge_record oh dp onm xcvrs picx rec) "cable_type" =
      if oTruthy (dget p "cable_type") then dget p "cable_type"
      else dget rec "cable_type")
    ∧ (dget (merge_record oh dp onm xcvrs picx rec) "media_type" =
      if oTruthy (dget p "media_type") then dget p "media_type"
      else if oTruthy (dget x "media_type") then dget x "media_type"
      else dget rec "media_type")
    ∧ (dget (merge_record oh dp onm xcvrs picx rec) "wavelength" =
      if oTruthy (dget p "wavelength") then dget p "wavelength"
      else dget rec "wavelength")
    ∧ (dget (merge_record oh dp onm xcvrs picx rec) "fiber_type" =
      if oTruthy (dget p "fiber_type") then dget p "fiber_type"
      else if oTruthy (dget x "fiber_type") then dget x "fiber_type"
      else dget rec "fiber_type")
    ∧ (dget (merge_record oh dp onm xcvrs picx rec) "firmware_version" =
      if oTruthy (dget p "firmware_version") then dget p "firmware_version"
      else dget rec "firmware_version") := by
  have hrec : merge_record oh dp onm xcvrs picx rec =
      condSet (condSet (condSet (condSet (condSet (condSet (condSet
        (condSet (condSet (condSet (condSet (condSet
          (condSet (condSet (condSet rec "origin_hostname" oh) "device_profile" dp)
            "origin_name" onm)
          "part_number" (dget x "part_number"))
          "serial_number" (dget x "serial_number"))
          "vendor" (dget x "vendor"))
          "media_type" (dget x "media_type"))
          "fiber_type" (dget x "fiber_type"))
        "vendor" (dget p "vendor"))
        "part_number" (dget p "part_number"))
        "cable_type" (dget p "cable_type"))
        "media_type" (dget p "media_type"))
        "wavelength" (dget p "wavelength"))
        "fiber_type" (dget p "fiber_type"))
        "firmware_version" (dget p "firmware_version") := by
    unfold merge_record
    rw [hname]
    simp only [hs, Bool.false_eq_true, if_false, hx, hp]
  rw [hrec]
  refine ⟨?_, ?_, ?_, ?_, ?_, ?_, ?_⟩ <;>
    simp [dget_condSet_self, dget_condSet_ne]

/-- Witness for `fuse_field_precedence`: chassis vendor `VendorA` together
with slot-detail vendor `VendorB` fuses to `VendorB`. -/
theorem fuse_field_precedence_witness :
    dget (merge_record none none none
      [("et-0/0/6", [("vendor", .pstr "VendorA")])]
      [("et-0/0/6", [("vendor", .pstr "VendorB")])]
      [("if_name", .pstr "et-0/0/6")]) "vendor" = some (.pstr "VendorB") := by
  have h := (fuse_field_precedence none none none
    [("et-0/0/6", [("vendor", .pstr "VendorA")])]
    [("et-0/0/6", [("vendor", .pstr "VendorB")])]
    [("if_name", .pstr "et-0/0/6")]
    [("vendor", .pstr "VendorA")] [("vendor", .pstr "VendorB")]
    "et-0/0/6" (by decide) (by decide) (by decide) (by decide)).1
  exact h.trans (by decide)

/-- C1 (code bug): on a lane-free interface whose optics-diagnostics subtree
carries DOM values, the emitted interface record has NO `tx_bias`,
`tx_power`, `rx_power`, `tx_power_mw` or `rx_power_mw` entries at all (the
parser never assigns them at the interface level), even though zero
lane-value elements were found — the repository's own
`test_interface_without_lanes` asserts they are populated here.  Conversely,
on an interface WITH a lane the interface-level `temperature` and `voltage`
DOM measurements are still populated.  Both directions of the claimed
iff-invariant fail. -/
theorem interface_dom_population_mismatch :
    ((parse_optical_diagnostics c1NoLanesDoc "10.209.3.39" 0 none).map (fun m =>
      (m.lanes.length, m.interfaces.map (fun d =>
        (hasValue (dget d "tx_bias"), hasValue (dget d "tx_power"),
         hasValue (dget d "rx_power"), hasValue (dget d "tx_power_mw"),
         hasValue (dget d "rx_power_mw"), hasValue (dget d "temperature"),
         hasValue (dget d "voltage"), dget d "tx_bias"))))
      = .ok (0, [(false, false, false, false, false, true, true, none)]))
    ∧ ((parse_optical_diagnostics c1LaneDoc "10.209.3.39" 0 none).map (fun m =>
      (m.lanes.length, m.interfaces.map (fun d =>
        (hasValue (dget d "temperature"), hasValue (dget d "voltage"))))))
      = .ok (1, [(true, true)]) := by
  constructor <;> rfl

/-- C8 (code bug): a non-numeric `lane-index` in the first physical interface
raises an uncaught `ValueError` that aborts the whole document — the second,
well-formed interface (which parses fine on its own) is never extracted. -/
theorem bad_lane_index_aborts_document :
    parse_optical_diagnostics c8BadLaneDoc "10.209.3.39" 0 none
      = .error "ValueError: invalid literal for int()"
    ∧ ((parse_optical_diagnostics c8GoodOnlyDoc "10.209.3.39" 0 none).map (fun m =>
        (m.interfaces.length, m.lanes.map (fun d => dget d "lane")))
      = .ok (1, [some (.pint 0)])) := by
  constructor <;> rfl

/-- C9 counterexample: a physical interface with a valid optics-diagnostics
subtree but no `name` element is NOT dropped — the extractor emits its record
under the fabricated placeholder name `unknown`. -/
theorem nameless_record_not_dropped :
    (parse_optical_diagnostics c9NamelessDoc "10.209.3.39" 0 none).map (fun m =>
      m.interfaces.map (fun d => dget d "if_name"))
      = .ok [some (.pstr "unknown")] := rfl

/-- Changing the `findtext_ns` default only changes the not-found result. -/
theorem findtext_default (e : XmlElem) (t : String) (d : Option String) :
    findtext_ns e t d =
      match findtext_ns e t none with
      | some s => some s
      | none => d := by
  unfold findtext_ns
  cases find_ns e t with
  | none => rfl
  | some c =>
    dsimp only
    cases c.text with
    | none => rfl
    | some s => by_cases hs : s.data.isEmpty = true <;> simp [hs]

/-- Fusion never touches the `if_name` key of a record. -/
theorem merge_record_if_name (oh dp onm : Option PyVal)
    (xcvrs picx : List (String × Dict)) (rec : Dict) :
    dget (merge_record oh dp onm xcvrs picx rec) "if_name" = dget rec "if_name" := by
  unfold merge_record
  cases hd : dget rec "if_name" with
  | none => simp [hd, dget_condSet_ne]
  | some v =>
    cases v with
    | pnone => simp [hd, dget_condSet_ne]
    | pnum q => simp [hd, dget_condSet_ne]
    | pint n => simp [hd, dget_condSet_ne]
    | pstr s =>
      by_cases hs : s.data.isEmpty = true
      · simp [hd, hs, dget_condSet_ne]
      · cases hx : xget xcvrs (parse_interface_base_name s) <;>
          cases hp : xget picx (parse_interface_base_name s) <;>
          simp [hd, hs, hx, hp, dget_condSet_ne]

/-- C9 (corrected): a diagnostics record whose physical-interface element has
no resolvable name is not dropped: the extractor emits it under the default
placeholder `unknown`, and fusion processes it like any other record — fusion
itself never drops records, fabricates names or alters the `if_name` of any
record. -/
theorem unresolvable_name_behavior :
    (∀ (device : String) (ts : ℤ) (phys : XmlElem),
      findtext_ns phys "name" none = none →
      ((parse_interface_metrics phys device ts none).map (fun d => dget d "if_name")).getD
          (some (.pstr "unknown")) = some (.pstr "unknown"))
    ∧ (∀ (si : SystemInfo) (ci : ChassisInv) (om : OpticsResult) (pd : Option PicDetail),
        (merge_metadata si ci om pd).interfaces.map (fun d => dget d "if_name")
          = om.interfaces.map (fun d => dget d "if_name")
        ∧ (merge_metadata si ci om pd).lanes.map (fun d => dget d "if_name")
          = om.lanes.map (fun d => dget d "if_name")) := by
  constructor
  · intro device ts phys h
    have hn : findtext_ns phys "name" (some "unknown") = some "unknown" := by
      rw [findtext_default phys "name" (some "unknown"), h]
    unfold parse_interface_metrics
    rw [hn]
    cases hog : find_ns phys "optics-diagnostics" with
    | none => rfl
    | some og =>
      by_cases hna : (find_ns og "optic-diagnostics-not-available").isSome = true
      · simp [hna]
      · simp [hna, dget_cons]
  · intro si ci om pd
    constructor <;>
      simp [merge_metadata, merge_record_if_name, Function.comp]

/-- Witness for `unresolvable_name_behavior`: the nameless interface of
`c9NamelessDoc` yields a record named `unknown`. -/
theorem unresolvable_name_behavior_witness :
    ((parse_interface_metrics
        (xmlNode "physical-interface"
          [xmlNode "optics-diagnostics"
            [xmlLeaf "laser-temperature-high-alarm-threshold"
              "90 degrees C / 194 degrees F"]])
        "10.209.3.39" 0 none).map (fun d => dget d "if_name")).getD
      (some (.pstr "unknown")) = some (.pstr "unknown") :=
  unresolvable_name_behavior.1 "10.209.3.39" 0
    (xmlNode "physical-interface"
      [xmlNode "optics-diagnostics"
        [xmlLeaf "laser-temperature-high-alarm-threshold"
          "90 degrees C / 194 degrees F"]]) rfl

/-- C10 (confirmed): a lane-value element without a `lane-index` child still
produces a lane record, and its lane number defaults to 0 (`findtext_ns`
default `'0'`, then `int`). -/
theorem lane_missing_index_defaults_zero (device : String) (ts : ℤ)
    (phys og lane : XmlElem)
    (hog : find_ns phys "optics-diagnostics" = some og)
    (hna : find_ns og "optic-diagnostics-not-available" = none)
    (hlanes : findall_recursive_ns og "optics-diagnostics-lane-values" = [lane])
    (hidx : find_ns lane "lane-index" = none) :
    (parse_lane_metrics phys device ts none).map (fun l => l.map (fun d => dget d "lane"))
      = .ok [some (.pint 0)] := by
  have hli : findtext_ns lane "lane-index" (some "0") = some "0" := by
    unfold findtext_ns
    rw [hidx]
  have h0 : pyIntCore "0".data = some 0 := rfl
  unfold parse_lane_metrics
  simp [hog, hna, hlanes, hli, h0, laneLoop, Except.map, dget_cons]

/-- Witness for `lane_missing_index_defaults_zero` on the concrete
`c10Phys` interface. -/
theorem lane_missing_index_defaults_zero_witness :
    (parse_lane_metrics c10Phys "10.209.3.39" 0 none).map
        (fun l => l.map (fun d => dget d "lane"))
      = .ok [some (.pint 0)] :=
  lane_missing_index_defaults_zero "10.209.3.39" 0 c10Phys c10Og c10Lane
    rfl rfl rfl rfl

/-- Every completed invocation of the calculator saves exactly the current
counter state. -/
theorem calculate_throughput_saves_state (prev : Option Dict) (d o st : Dict)
    (h : calculate_throughput prev d = some (o, st)) : st = mk_current_state d := by
  unfold calculate_throughput at h
  cases prev with
  | none =>
    simp at h
    exact h.2.symm
  | some p =>
    dsimp only at h
    by_cases hc : (!p.isEmpty && pyTruthy ((dget p "timestamp").getD PyVal.pnone)) = true
    · rw [if_pos hc] at h
      cases h1 : (dget d "timestamp").bind toRat with
      | none =>
        rw [h1] at h
        simp at h
      | some c =>
        rw [h1] at h
        cases h2 : (dget p "timestamp").bind toRat with
        | none =>
          rw [h2] at h
          simp at h
        | some q =>
          rw [h2] at h
          dsimp only at h
          by_cases h3 : ((c - q) / 1000000 : ℚ) > 0
          · rw [if_pos h3] at h
            cases h4 : fecStep (mk_current_state d) p ((c - q) / 1000000)
                "fec_ccw_count" "fec_ccw_delta" "fec_ccw_rate" d with
            | none =>
              rw [h4] at h
              simp at h
            | some d1 =>
              rw [h4] at h
              dsimp only at h
              cases h5 : fecStep (mk_current_state d) p ((c - q) / 1000000)
                  "fec_nccw_count" "fec_nccw_delta" "fec_nccw_rate" d1 with
              | none =>
                rw [h5] at h
                simp at h
              | some d2 =>
                rw [h5] at h
                simp at h
                exact h.2.symm
          · rw [if_neg h3] at h
            simp at h
            exact h.2.symm
    · rw [if_neg hc] at h
      simp at h
      exact h.2.symm

/-- C4 (confirmed): the counter-delta calculator (a) on a cold start emits
explicit `None` for both deltas, both rates and the interval, (b) on a
subsequent observation with truthy previous timestamp and a strictly positive
interval emits `intervalSeconds = (ct − pt)/10⁶`, per-counter
`delta = current − previous` and `rate = delta / intervalSeconds`, and
(c) persists the current counter state whenever the invocation completes. -/
theorem counter_delta_behavior :
    (∀ d : Dict,
      (calculate_throughput none d).map (fun r =>
        (dget r.1 "fec_ccw_delta", dget r.1 "fec_nccw_delta",
         dget r.1 "fec_ccw_rate", dget r.1 "fec_nccw_rate",
         dget r.1 "collection_interval_sec"))
        = some (some .pnone, some .pnone, some .pnone, some .pnone, some .pnone))
    ∧ (∀ (p d : Dict) (pt ct c1 p1 c2 p2 : ℤ),
        dget p "timestamp" = some (.pint pt) →
        dget d "timestamp" = some (.pint ct) →
        pt ≠ 0 → pt < ct →
        dget d "fec_ccw_count" = some (.pint c1) →
        dget p "fec_ccw_count" = some (.pint p1) →
        dget d "fec_nccw_count" = some (.pint c2) →
        dget p "fec_nccw_count" = some (.pint p2) →
        (calculate_throughput (some p) d).map (fun r =>
          (dget r.1 "fec_ccw_delta", dget r.1 "fec_ccw_rate",
           dget r.1 "fec_nccw_delta", dget r.1 "fec_nccw_rate",
           dget r.1 "collection_interval_sec"))
          = some (some (.pint (c1 - p1)),
              some (.pnum (((c1 - p1 : ℤ) : ℚ) / (((ct : ℚ) - (pt : ℚ)) / 1000000))),
              some (.pint (c2 - p2)),
              some (.pnum (((c2 - p2 : ℤ) : ℚ) / (((ct : ℚ) - (pt : ℚ)) / 1000000))),
              some (.pnum (((ct : ℚ) - (pt : ℚ)) / 1000000))))
    ∧ (∀ (prev : Option Dict) (d o st : Dict),
        calculate_throughput prev d = some (o, st) →
        dget st "timestamp" = some ((dget d "timestamp").getD .pnone)
        ∧ dget st "fec_ccw_count" = some ((dget d "fec_ccw_count").getD .pnone)
        ∧ dget st "fec_nccw_count" = some ((dget d "fec_nccw_count").getD .pnone)) := by
  refine ⟨?_, ?_, ?_⟩
  · intro d
    simp [calculate_throughput, coldMark, dget_dset_self, dget_dset_ne]
  · intro p d pt ct c1 p1 c2 p2 hpt hct hpt0 hlt hc1 hp1 hc2 hp2
    have hpne : p.isEmpty = false := by
      cases p with
      | nil => simp [dget] at hpt
      | cons a t => rfl
    have htr : pyTruthy ((dget p "timestamp").getD PyVal.pnone) = true := by
      rw [hpt]
      simp [pyTruthy, hpt0]
    have hcd : (dget d "timestamp").bind toRat = some ((ct : ℚ)) := by rw [hct]; rfl
    have hcp : (dget p "timestamp").bind toRat = some ((pt : ℚ)) := by rw [hpt]; rfl
    have htd : (0 : ℚ) < ((ct : ℚ) - (pt : ℚ)) / 1000000 := by
      apply div_pos
      · rw [sub_pos]
        exact_mod_cast hlt
      · norm_num
    have hcs1 : dget (mk_current_state d) "fec_ccw_count" = some (PyVal.pint c1) := by
      have hb : dget (mk_current_state d) "fec_ccw_count"
          = some ((dget d "fec_ccw_count").getD .pnone) := rfl
      rw [hb, hc1]
      rfl
    have hcs2 : dget (mk_current_state d) "fec_nccw_count" = some (PyVal.pint c2) := by
      have hb : dget (mk_current_state d) "fec_nccw_count"
          = some ((dget d "fec_nccw_count").getD .pnone) := rfl
      rw [hb, hc2]
      rfl
    have hstep1 : fecStep (mk_current_state d) p (((ct : ℚ) - (pt : ℚ)) / 1000000)
        "fec_ccw_count" "fec_ccw_delta" "fec_ccw_rate" d
        = some (dset (dset d "fec_ccw_delta" (.pint (c1 - p1))) "fec_ccw_rate"
            (.pnum (((c1 - p1 : ℤ) : ℚ) / (((ct : ℚ) - (pt : ℚ)) / 1000000)))) := by
      unfold fecStep
      rw [hcs1, hp1]
      simp [pySub, toRat]
    have hstep2 : fecStep (mk_current_state d) p (((ct : ℚ) - (pt : ℚ)) / 1000000)
        "fec_nccw_count" "fec_nccw_delta" "fec_nccw_rate"
        (dset (dset d "fec_ccw_delta" (.pint (c1 - p1))) "fec_ccw_rate"
          (.pnum (((c1 - p1 : ℤ) : ℚ) / (((ct : ℚ) - (pt : ℚ)) / 1000000))))
        = some (dset (dset (dset (dset d "fec_ccw_delta" (.pint (c1 - p1))) "fec_ccw_rate"
            (.pnum (((c1 - p1 : ℤ) : ℚ) / (((ct : ℚ) - (pt : ℚ)) / 1000000))))
            "fec_nccw_delta" (.pint (c2 - p2))) "fec_nccw_rate"
            (.pnum (((c2 - p2 : ℤ) : ℚ) / (((ct : ℚ) - (pt : ℚ)) / 1000000)))) := by
      unfold fecStep
      rw [hcs2, hp2]
      simp [pySub, toRat]
    unfold calculate_throughput
    dsimp only
    rw [hpne]
    simp only [htr, Bool.not_false, Bool.true_and, if_true]
    rw [hcd, hcp]
    dsimp only
    rw [if_pos htd, hstep1]
    dsimp only
    rw [hstep2]
    simp [dget_dset_self, dget_dset_ne]
  · intro prev d o st h
    rw [calculate_throughput_saves_state prev d o st h]
    exact ⟨rfl, rfl, rfl⟩

/-- Witness for `counter_delta_behavior`: counter 100 after a previous 40
over a 10-second interval yields delta 60 and rate 6.0. -/
theorem counter_delta_behavior_witness :
    (calculate_throughput
        (some [("timestamp", .pint 1000000), ("fec_ccw_count", .pint 40),
               ("fec_nccw_count", .pint 40)])
        [("timestamp", .pint 11000000), ("fec_ccw_count", .pint 100),
         ("fec_nccw_count", .pint 100)]).map (fun r =>
        (dget r.1 "fec_ccw_delta", dget r.1 "fec_ccw_rate",
         dget r.1 "fec_nccw_delta", dget r.1 "fec_nccw_rate",
         dget r.1 "collection_interval_sec"))
      = some (some (.pint 60), some (.pnum 6), some (.pint 60), some (.pnum 6),
          some (.pnum 10)) := by
  have h := counter_delta_behavior.2.1
    [("timestamp", .pint 1000000), ("fec_ccw_count", .pint 40),
     ("fec_nccw_count", .pint 40)]
    [("timestamp", .pint 11000000), ("fec_ccw_count", .pint 100),
     ("fec_nccw_count", .pint 100)]
    1000000 11000000 100 40 100 40 rfl rfl (by norm_num) (by norm_num)
    rfl rfl rfl rfl
  rw [h]
  norm_num

end Telemetry

